import Mathlib

/-!
Verification of the shell_gpt session controller (`sgpt/app.py`).

The module under verification is a command-line assistant: `chat_mode` resumes
or creates a chat session, validates the requested mode (plain / shell / code)
against the mode locked into the session's first stored message, then drives an
unbounded request/response loop that streams completion fragments and, in shell
mode, optionally executes the accumulated response; `main` is the single-shot
path.  External collaborators (the OpenAI client, the on-disk chat cache, the
prompt builder, click/typer) are modelled by their contracts; the control flow
of `app.py` is embedded as executable Lean functions below.
-/

namespace SgptSpec

/-- Python `str.endswith(suffix)`: a character-sequence suffix test. -/
def pyEndsWith (s suffix : String) : Bool :=
  suffix.data.isSuffixOf s.data

/-- Sentinel suffix of a shell-mode session's first message (`app.py` line 68). -/
def shellSentinel : String := "###\nCommand:"

/-- Sentinel suffix of a code-mode session's first message (`app.py` line 69). -/
def codeSentinel : String := "###\nCode:"

/-- Errors that abort an invocation.  `badParameter` and `missingParameter`
embed the click exceptions raised in `app.py`; `indexError` embeds the Python
`IndexError` raised by `chat_history[0]` on an empty history.  The
`corruptSession` constructor is never produced by the embedded code: it names
the defensive error that the specification's taxonomy expects for an
empty-but-existing session, so that this expectation can be stated and
compared against what the code actually does. -/
inductive AppError where
  | badParameter (msg : String)
  | missingParameter (paramHint paramType : String)
  | indexError
  | corruptSession
deriving DecidableEq, Repr

/-- The chat-transcript store consumed by `chat_mode`
(`OpenAIClient.chat_cache`), modelled by the two operations `app.py` uses:
the existence check and the full-history read (message contents, oldest
first). -/
structure ChatCache where
  exists_ : String → Bool
  get_messages : String → List String

/-- The message of the `BadParameter` raised at `app.py` lines 71-73. -/
def shellOnlyMsg (chatId : String) : String :=
  "Chat id:" ++ chatId ++ " was initiated as shell assistant, can be used with --shell only"

/-- The message of the `BadParameter` raised at `app.py` lines 74-77. -/
def codeOnlyMsg (chatId : String) : String :=
  "Chat id:" ++ chatId ++ " was initiated as code assistant, can be used with --code only"

/-- Modelled from the spec: the prompt-builder collaborator
`sgpt.make_prompt.initial` is not under `src/`.  Per the spec it is a pure
function framing the raw text for the first turn, and the load-bearing part of
its contract is that shell-mode framing ends with the sentinel
`"###\nCommand:"` and code-mode framing with `"###\nCode:"`. -/
def makePromptInitial (txt : String) (shell code : Bool) : String :=
  if shell then txt ++ shellSentinel
  else if code then txt ++ codeSentinel
  else txt

/-- Modelled from the spec: the prompt-builder collaborator
`sgpt.make_prompt.chat_mode` is not under `src/`.  Per the spec it is a pure
function wrapping a follow-up turn with role-appropriate framing, ending with
the same mode sentinels. -/
def makePromptChatMode (txt : String) (shell code : Bool) : String :=
  if shell then txt ++ shellSentinel
  else if code then txt ++ codeSentinel
  else txt

/-- The outcome of `chat_mode`'s validation-and-prompt-building prelude:
the effective flags and the framed outbound prompt for the first request. -/
structure PreludeOk where
  shell : Bool
  code : Bool
  framedPrompt : String
deriving DecidableEq, Repr

/-- `chat_mode`'s prelude (`app.py` lines 60-87): the existence check, the
history read with its suffix-based mode detection and conflict checks, the
mode override, and the prompt framing.  `entered` models the interactive read
performed when the incoming `promptArg` is empty (Python falsy). -/
def chatModePrelude (cache : ChatCache) (chatId promptArg entered : String)
    (shell code : Bool) : Except AppError PreludeOk :=
  if cache.exists_ chatId then
    match cache.get_messages chatId with
    | [] => .error .indexError
    | first :: _ =>
      let isShellChat := pyEndsWith first shellSentinel
      let isCodeChat := pyEndsWith first codeSentinel
      if isShellChat && code then
        .error (.badParameter (shellOnlyMsg chatId))
      else if isCodeChat && shell then
        .error (.badParameter (codeOnlyMsg chatId))
      else
        let prompt := if promptArg == "" then entered else promptArg
        .ok ⟨isShellChat, isCodeChat, makePromptChatMode prompt isShellChat isCodeChat⟩
  else
    let prompt := if promptArg == "" then entered else promptArg
    .ok ⟨shell, code, makePromptInitial prompt shell code⟩

/-- The streaming loop of `app.py` (lines 97-101 and 153-157): drain the lazy
fragment sequence, echoing each fragment and appending it to the buffer.
Returns the echo trace (fragments written, in order) and the final buffer. -/
def streamDrain (fragments : List String) : List String × String :=
  fragments.foldl (fun acc word => (acc.1 ++ [word], acc.2 ++ word)) ([], "")

/-- The external inputs consumed by one iteration of `chat_mode`'s while-loop:
the fragments the completion collaborator yields for this request, the line
read back at the `Revise or [E]xecute` (or `Prompt`) prompt, and the fresh
top-level prompt read after an execute (unused otherwise). -/
structure IterInput where
  fragments : List String
  choice : String
  freshPrompt : String
deriving DecidableEq, Repr

/-- The observable outcome of one iteration of `chat_mode`'s while-loop. -/
structure IterResult where
  sentPrompt : String
  written : List String
  fullCompletion : String
  executedCmds : List String
  nextPrompt : String
deriving DecidableEq, Repr

/-- One iteration of `chat_mode`'s while-loop (`app.py` lines 89-116): issue
the completion request for `prompt`, drain the stream, read the user's choice;
in shell mode an input of exactly `"execute"` or `"e"` runs the accumulated
response and reads a fresh prompt; finally the next outbound prompt is built
by the chat-mode wrapper (line 116, unconditional). -/
def chatIter (shell code : Bool) (prompt : String) (i : IterInput) : IterResult :=
  let sd := streamDrain i.fragments
  let full := sd.2
  let p1 := i.choice
  let step : List String × String :=
    if shell && (p1 == "execute" || p1 == "e") then ([full], i.freshPrompt)
    else ([], p1)
  { sentPrompt := prompt
    written := sd.1
    fullCompletion := full
    executedCmds := step.1
    nextPrompt := makePromptChatMode step.2 shell code }

/-- The while-loop of `chat_mode`, run against a finite schedule of iteration
inputs: one `IterResult` per schedule entry, threading the outbound prompt
from one iteration to the next.  The loop body contains no break or return,
so a run consumes its entire schedule. -/
def chatLoopSteps (shell code : Bool) : String → List IterInput → List IterResult
  | _, [] => []
  | prompt, i :: is =>
    let r := chatIter shell code prompt i
    r :: chatLoopSteps shell code r.nextPrompt is

/-- The prompts sent to the completion collaborator during a `chat_mode` run:
none when the prelude raises, otherwise one per loop iteration. -/
def chatModeRequests (cache : ChatCache) (chatId promptArg entered : String)
    (shell code : Bool) (inps : List IterInput) : List String :=
  match chatModePrelude cache chatId promptArg entered shell code with
  | .error _ => []
  | .ok p => (chatLoopSteps p.shell p.code p.framedPrompt inps).map IterResult.sentPrompt

/-- The arguments of `main` (`app.py` lines 119-129).  A missing prompt or
chat id is the empty string (Python `None` is falsy, as is `""`). -/
structure MainArgs where
  prompt : String
  chat : String
  listChat : Bool
  shell : Bool
  code : Bool
  editor : Bool
deriving DecidableEq, Repr

/-- How an invocation of `main` ends: listing chat ids and returning, handing
control to `chat_mode`'s non-returning loop, aborting with an error, or
completing the single-shot path. -/
inductive MainOutcome where
  | listed
  | chatEntered
  | aborted (e : AppError)
  | finished
deriving DecidableEq, Repr

/-- The observable trace of a `main` invocation: its outcome, the prompts sent
to the completion collaborator, the fragments written to output, and the
commands passed to the shell-execution collaborator (`os.system`). -/
structure MainRun where
  outcome : MainOutcome
  requests : List String
  written : List String
  executed : List String
deriving DecidableEq, Repr

/-- `main` (`app.py` lines 130-159): list-chats early return; editor prompt
substitution; hand-off to `chat_mode` when a chat id is given (the loop never
returns); the missing-prompt check; then the single-shot completion with the
confirmation-gated execution. -/
def mainRun (args : MainArgs) (editedPrompt : String) (fragments : List String)
    (confirmAnswer : Bool) : MainRun :=
  if args.listChat then ⟨.listed, [], [], []⟩
  else
    let prompt := if args.editor then editedPrompt else args.prompt
    if args.chat != "" then ⟨.chatEntered, [], [], []⟩
    else if prompt == "" && !args.editor then
      ⟨.aborted (.missingParameter "PROMPT" "string"), [], [], []⟩
    else
      let framed := makePromptInitial prompt args.shell args.code
      let sd := streamDrain fragments
      let executed := if !args.code && args.shell && confirmAnswer then [sd.2] else []
      ⟨.finished, [framed], sd.1, executed⟩

/-- Modelled from the spec: the click/typer runtime (not under `src/`) reports
an uncaught usage error (`MissingParameter`, `BadParameter`) with exit status
2, any other uncaught exception with status 1, and a normal return with 0. -/
def errorExitCode : AppError → Nat
  | .badParameter _ => 2
  | .missingParameter _ _ => 2
  | .indexError => 1
  | .corruptSession => 1

/-- The process exit status for a `main` outcome (see `errorExitCode`). -/
def exitCode : MainOutcome → Nat
  | .aborted e => errorExitCode e
  | _ => 0

/-- Folding string append from any accumulator factors through the join of
the list. -/
theorem foldl_append_eq_join (l : List String) (a : String) :
    l.foldl (fun r s => r ++ s) a = a ++ String.join l := by
  induction l generalizing a with
  | nil => simp [String.join, String.append_empty]
  | cons w ws ih =>
    simp only [String.join, List.foldl_cons] at *
    rw [ih (a ++ w), ih ("" ++ w), String.empty_append, String.append_assoc]

/-- Join splits off its head fragment. -/
theorem join_cons (w : String) (ws : List String) :
    String.join (w :: ws) = w ++ String.join ws := by
  simp only [String.join, List.foldl_cons]
  rw [foldl_append_eq_join ws ("" ++ w), String.empty_append]
  simp [String.join]

/-- Unfolding lemma for the streaming fold: from any starting trace and
buffer, draining appends the fragments to the trace and their concatenation
to the buffer. -/
theorem streamDrain_go (fragments : List String) (acc : List String) (buf : String) :
    fragments.foldl (fun a w => (a.1 ++ [w], a.2 ++ w)) (acc, buf)
      = (acc ++ fragments, buf ++ String.join fragments) := by
  induction fragments generalizing acc buf with
  | nil => simp [String.join, String.append_empty]
  | cons w ws ih =>
    simp only [List.foldl_cons, ih, join_cons]
    rw [String.append_assoc]
    simp

/-- The streaming loop decomposed: the echo trace is exactly the fragment
list, and the buffer is exactly their concatenation. -/
theorem streamDrain_eq (fragments : List String) :
    streamDrain fragments = (fragments, String.join fragments) := by
  have h := streamDrain_go fragments [] ""
  simpa [streamDrain, String.empty_append] using h

/-- A string ending with the code sentinel does not end with the shell
sentinel: neither sentinel is a suffix of the other, and two suffixes of the
same string are comparable. -/
theorem code_suffix_not_shell (s : String) (h : pyEndsWith s codeSentinel = true) :
    pyEndsWith s shellSentinel = false := by
  cases hsf : pyEndsWith s shellSentinel with
  | false => rfl
  | true =>
    exfalso
    simp only [pyEndsWith] at h hsf
    have h1 : codeSentinel.data <:+ s.data := List.isSuffixOf_iff_suffix.mp h
    have h2 : shellSentinel.data <:+ s.data := List.isSuffixOf_iff_suffix.mp hsf
    rcases List.suffix_or_suffix_of_suffix h1 h2 with h3 | h3
    · exact absurd (List.isSuffixOf_iff_suffix.mpr h3) (by decide)
    · exact absurd (List.isSuffixOf_iff_suffix.mpr h3) (by decide)

/-- C3: streaming faithfulness.  The streaming loop writes every fragment
exactly once, in arrival order, and its full-response buffer is exactly the
concatenation of the fragments; this holds in the chat-mode loop (whose
executed/appended string is the `fullCompletion` field) and in the single-shot
path (whose executed string, when any, is that same concatenation). -/
theorem c3_streaming_faithfulness :
    (∀ fragments : List String,
        streamDrain fragments = (fragments, String.join fragments))
    ∧ (∀ (shell code : Bool) (prompt : String) (i : IterInput),
        (chatIter shell code prompt i).written = i.fragments
        ∧ (chatIter shell code prompt i).fullCompletion = String.join i.fragments)
    ∧ (∀ (args : MainArgs) (edited : String) (fragments : List String) (confirm : Bool),
        ((mainRun args edited fragments confirm).written = []
          ∨ (mainRun args edited fragments confirm).written = fragments)
        ∧ ((mainRun args edited fragments confirm).executed = []
          ∨ (mainRun args edited fragments confirm).executed = [String.join fragments])) := by
  refine ⟨streamDrain_eq, fun shell code prompt i => ?_, fun args edited fragments confirm => ?_⟩
  · exact ⟨by simp [chatIter, streamDrain_eq], by simp [chatIter, streamDrain_eq]⟩
  · constructor
    · simp only [mainRun, streamDrain_eq]
      repeat' split
      all_goals simp
    · simp only [mainRun, streamDrain_eq]
      repeat' split
      all_goals simp

/-- C8: once the chat-mode loop is entered it never terminates normally: a
run against any finite schedule of user inputs and collaborator responses
consumes the whole schedule, issuing exactly one completion request per
iteration — no input is recognized as a quit command and the loop has no
normal exit. -/
theorem c8_loop_never_terminates (shell code : Bool) (prompt : String)
    (inps : List IterInput) :
    ((chatLoopSteps shell code prompt inps).map IterResult.sentPrompt).length
      = inps.length := by
  induction inps generalizing prompt with
  | nil => rfl
  | cons i is ih => simp [chatLoopSteps, ih]

/-- C4: in shell-mode chat, an input of exactly "execute" or exactly "e"
passes the accumulated full response to the shell-execution collaborator
exactly once and then requests a fresh top-level prompt (the fresh prompt,
not the choice text, becomes the next turn); any other input is never
executed and itself becomes the next user turn. -/
theorem c4_execute_gate (code : Bool) (prompt : String) (i : IterInput) :
    ((i.choice = "execute" ∨ i.choice = "e") →
        (chatIter true code prompt i).executedCmds
            = [(chatIter true code prompt i).fullCompletion]
        ∧ (chatIter true code prompt i).nextPrompt
            = makePromptChatMode i.freshPrompt true code)
    ∧ (i.choice ≠ "execute" → i.choice ≠ "e" →
        (chatIter true code prompt i).executedCmds = []
        ∧ (chatIter true code prompt i).nextPrompt
            = makePromptChatMode i.choice true code) := by
  constructor
  · rintro (h | h) <;> simp [chatIter, h]
  · intro h1 h2
    have hb : (i.choice == "execute" || i.choice == "e") = false := by
      simp [h1, h2]
    simp [chatIter, hb]

/-- Witness for C4 at concrete inputs: choice "e" executes the accumulated
response once and the fresh prompt becomes the next turn; a revision input
is not executed and becomes the next turn. -/
theorem c4_execute_gate_witness :
    ((chatIter true false "p" ⟨["rm -rf /tmp/foo"], "e", "list files"⟩).executedCmds
        = [(chatIter true false "p" ⟨["rm -rf /tmp/foo"], "e", "list files"⟩).fullCompletion]
      ∧ (chatIter true false "p" ⟨["rm -rf /tmp/foo"], "e", "list files"⟩).nextPrompt
        = makePromptChatMode "list files" true false)
    ∧ ((chatIter true false "p" ⟨["ls"], "use -la", "x"⟩).executedCmds = []
      ∧ (chatIter true false "p" ⟨["ls"], "use -la", "x"⟩).nextPrompt
        = makePromptChatMode "use -la" true false) :=
  ⟨(c4_execute_gate false "p" ⟨["rm -rf /tmp/foo"], "e", "list files"⟩).1 (Or.inr rfl),
   (c4_execute_gate false "p" ⟨["ls"], "use -la", "x"⟩).2 (by decide) (by decide)⟩

/-- C9: in shell-mode chat, after an execute the freshly read top-level
prompt is unconditionally re-wrapped by the chat-mode prompt builder with
shell still true (the same wrapping a revision receives) before being sent
as the next turn. -/
theorem c9_post_execute_rewrap (code : Bool) (prompt : String) (i : IterInput)
    (h : i.choice = "execute" ∨ i.choice = "e") :
    (chatIter true code prompt i).nextPrompt
      = makePromptChatMode i.freshPrompt true code := by
  rcases h with h | h <;> simp [chatIter, h]

/-- Witness for C9 at a concrete input: after "execute", the fresh prompt is
wrapped by the shell-mode chat wrapper. -/
theorem c9_post_execute_rewrap_witness :
    (chatIter true false "p" ⟨["echo hi"], "execute", "next question"⟩).nextPrompt
      = makePromptChatMode "next question" true false :=
  c9_post_execute_rewrap false "p" ⟨["echo hi"], "execute", "next question"⟩ (Or.inl rfl)

/-- C1: resuming a code-mode session (first message ends with the code
sentinel) with shell requested, or a shell-mode session (first message ends
with the shell sentinel) with code requested, aborts with the BadParameter
conflict error whose message names the session id, and no completion request
is ever issued for that invocation. -/
theorem c1_mode_conflict (cache : ChatCache) (chatId promptArg entered : String)
    (shell code : Bool) (first : String) (rest : List String)
    (hex : cache.exists_ chatId = true)
    (hmsgs : cache.get_messages chatId = first :: rest) :
    (pyEndsWith first codeSentinel = true → shell = true →
      chatModePrelude cache chatId promptArg entered shell code
          = .error (.badParameter (codeOnlyMsg chatId))
        ∧ (∃ pre post, codeOnlyMsg chatId = pre ++ chatId ++ post)
        ∧ ∀ inps, chatModeRequests cache chatId promptArg entered shell code inps = [])
    ∧ (pyEndsWith first shellSentinel = true → code = true →
      chatModePrelude cache chatId promptArg entered shell code
          = .error (.badParameter (shellOnlyMsg chatId))
        ∧ (∃ pre post, shellOnlyMsg chatId = pre ++ chatId ++ post)
        ∧ ∀ inps, chatModeRequests cache chatId promptArg entered shell code inps = []) := by
  constructor
  · intro hcode hsh
    have hns := code_suffix_not_shell first hcode
    have hpre : chatModePrelude cache chatId promptArg entered shell code
        = .error (.badParameter (codeOnlyMsg chatId)) := by
      simp [chatModePrelude, hex, hmsgs, hns, hcode, hsh]
    refine ⟨hpre, ⟨"Chat id:",
      " was initiated as code assistant, can be used with --code only", rfl⟩, fun inps => ?_⟩
    simp [chatModeRequests, hpre]
  · intro hshell hcode
    have hpre : chatModePrelude cache chatId promptArg entered shell code
        = .error (.badParameter (shellOnlyMsg chatId)) := by
      simp [chatModePrelude, hex, hmsgs, hshell, hcode]
    refine ⟨hpre, ⟨"Chat id:",
      " was initiated as shell assistant, can be used with --shell only", rfl⟩, fun inps => ?_⟩
    simp [chatModeRequests, hpre]

/-- Witness for C1 at concrete stores: a code-mode session resumed with
shell requested, and a shell-mode session resumed with code requested, each
abort with the conflict error naming the session id and issue no request. -/
theorem c1_mode_conflict_witness :
    (chatModePrelude ⟨fun _ => true, fun _ => ["ls###\nCode:"]⟩ "abc" "p" "" true false
        = .error (.badParameter (codeOnlyMsg "abc"))
      ∧ chatModeRequests ⟨fun _ => true, fun _ => ["ls###\nCode:"]⟩ "abc" "p" "" true false [] = [])
    ∧ (chatModePrelude ⟨fun _ => true, fun _ => ["ls###\nCommand:"]⟩ "abc" "p" "" false true
        = .error (.badParameter (shellOnlyMsg "abc"))
      ∧ chatModeRequests ⟨fun _ => true, fun _ => ["ls###\nCommand:"]⟩ "abc" "p" "" false true [] = []) := by
  constructor
  · have h := (c1_mode_conflict ⟨fun _ => true, fun _ => ["ls###\nCode:"]⟩
        "abc" "p" "" true false "ls###\nCode:" [] rfl rfl).1 (by decide) rfl
    exact ⟨h.1, h.2.2 []⟩
  · have h := (c1_mode_conflict ⟨fun _ => true, fun _ => ["ls###\nCommand:"]⟩
        "abc" "p" "" false true "ls###\nCommand:" [] rfl rfl).2 (by decide) rfl
    exact ⟨h.1, h.2.2 []⟩

/-- C2: when resuming an existing session raises no conflict, the effective
mode is derived solely from the first stored message's suffix — shell iff it
ends with the shell sentinel, code iff it ends with the code sentinel, plain
otherwise — replacing whatever flags the caller supplied. -/
theorem c2_stored_mode_adopted (cache : ChatCache) (chatId promptArg entered : String)
    (shell code : Bool) (first : String) (rest : List String) (p : PreludeOk)
    (hex : cache.exists_ chatId = true)
    (hmsgs : cache.get_messages chatId = first :: rest)
    (hok : chatModePrelude cache chatId promptArg entered shell code = .ok p) :
    p.shell = pyEndsWith first shellSentinel ∧ p.code = pyEndsWith first codeSentinel := by
  simp only [chatModePrelude, hex, if_true, hmsgs] at hok
  split at hok
  · exact absurd hok (by simp)
  · split at hok
    · exact absurd hok (by simp)
    · rw [Except.ok.injEq] at hok
      subst hok
      exact ⟨rfl, rfl⟩

/-- Witness for C2 at a concrete store: a shell-mode session resumed with
both flags false adopts shell mode from the stored sentinel. -/
theorem c2_stored_mode_adopted_witness :
    PreludeOk.shell ⟨true, false, "p" ++ shellSentinel⟩
        = pyEndsWith "ls###\nCommand:" shellSentinel
    ∧ PreludeOk.code ⟨true, false, "p" ++ shellSentinel⟩
        = pyEndsWith "ls###\nCommand:" codeSentinel :=
  c2_stored_mode_adopted ⟨fun _ => true, fun _ => ["ls###\nCommand:"]⟩
    "abc" "p" "" false false "ls###\nCommand:" [] ⟨true, false, "p" ++ shellSentinel⟩
    rfl rfl rfl

/-- C5 as stated is false at this concrete store: with exists true and an
empty history, the prelude fails with the bare index error raised by reading
the first message, not with the defensive CorruptSession error the claim
describes. -/
theorem c5_corrupt_session_counterexample :
    ChatCache.exists_ ⟨fun _ => true, fun _ => []⟩ "x" = true
    ∧ ChatCache.get_messages ⟨fun _ => true, fun _ => []⟩ "x" = []
    ∧ chatModePrelude ⟨fun _ => true, fun _ => []⟩ "x" "p" "" false false
        = .error .indexError
    ∧ (Except.error AppError.indexError : Except AppError PreludeOk)
        ≠ .error .corruptSession :=
  ⟨rfl, rfl, rfl, by simp⟩

/-- C5 amended: for every session id whose existence check is true but whose
history read is empty, the prelude fails — with the index error from reading
the first stored message (the code performs no explicit defensive check) —
before any completion request is issued. -/
theorem c5_empty_history_index_error (cache : ChatCache)
    (chatId promptArg entered : String) (shell code : Bool)
    (hex : cache.exists_ chatId = true)
    (hmsgs : cache.get_messages chatId = []) :
    chatModePrelude cache chatId promptArg entered shell code = .error .indexError
    ∧ ∀ inps, chatModeRequests cache chatId promptArg entered shell code inps = [] := by
  have hpre : chatModePrelude cache chatId promptArg entered shell code
      = .error .indexError := by
    simp [chatModePrelude, hex, hmsgs]
  exact ⟨hpre, fun inps => by simp [chatModeRequests, hpre]⟩

/-- Witness for the amended C5 at a concrete store. -/
theorem c5_empty_history_index_error_witness :
    chatModePrelude ⟨fun _ => true, fun _ => []⟩ "x" "p" "" false false
        = .error .indexError
    ∧ chatModeRequests ⟨fun _ => true, fun _ => []⟩ "x" "p" "" false false [] = [] := by
  have h := c5_empty_history_index_error ⟨fun _ => true, fun _ => []⟩
      "x" "p" "" false false rfl rfl
  exact ⟨h.1, h.2 []⟩

/-- C6: in a single-shot invocation that reaches the completion step, the
shell-execution collaborator runs exactly the accumulated response, and it
runs at all if and only if shell is requested, code is not, and the user
confirms; declining the confirmation, or code mode, means no execution. -/
theorem c6_single_shot_execute_iff (args : MainArgs) (edited : String)
    (fragments : List String) (confirm : Bool)
    (hl : args.listChat = false) (hc : args.chat = "")
    (hp : (if args.editor then edited else args.prompt) = "" → args.editor = true) :
    (mainRun args edited fragments confirm).executed
        = (if !args.code && args.shell && confirm then [String.join fragments] else [])
    ∧ ((mainRun args edited fragments confirm).executed ≠ []
        ↔ args.shell = true ∧ args.code = false ∧ confirm = true) := by
  have hguard : ((if args.editor then edited else args.prompt) == "" && !args.editor) = false := by
    by_cases he : args.editor
    · simp [he]
    · cases hpe : ((if args.editor then edited else args.prompt) == "") with
      | false => simp [hpe]
      | true => exact absurd (hp (by simpa using hpe)) he
  have hexec : (mainRun args edited fragments confirm).executed
      = (if !args.code && args.shell && confirm then [String.join fragments] else []) := by
    simp [mainRun, hl, hc, hguard, streamDrain_eq]
  refine ⟨hexec, ?_⟩
  rw [hexec]
  cases hsh : args.shell <;> cases hco : args.code <;> cases confirm <;> simp

/-- Witness for C6 at concrete arguments: with shell requested and the user
confirming, the joined fragments are executed once; the iff holds. -/
theorem c6_single_shot_execute_iff_witness :
    (mainRun ⟨"list files", "", false, true, false, false⟩ "" ["ls", " -la"] true).executed
        = (if !false && true && true then [String.join ["ls", " -la"]] else [])
    ∧ ((mainRun ⟨"list files", "", false, true, false, false⟩ "" ["ls", " -la"] true).executed ≠ []
        ↔ true = true ∧ false = false ∧ true = true) :=
  c6_single_shot_execute_iff ⟨"list files", "", false, true, false, false⟩
    "" ["ls", " -la"] true rfl rfl (by decide)

/-- C7: a non-chat invocation with no prompt, no editor and no list-chats
request aborts with the missing-prompt usage error — no prompt is built and
no completion request is issued — and the process exit status is non-zero. -/
theorem c7_missing_prompt_usage_error (args : MainArgs) (edited : String)
    (fragments : List String) (confirm : Bool)
    (hl : args.listChat = false) (hc : args.chat = "")
    (he : args.editor = false) (hp : args.prompt = "") :
    mainRun args edited fragments confirm
        = ⟨.aborted (.missingParameter "PROMPT" "string"), [], [], []⟩
    ∧ exitCode (mainRun args edited fragments confirm).outcome ≠ 0 := by
  have hrun : mainRun args edited fragments confirm
      = ⟨.aborted (.missingParameter "PROMPT" "string"), [], [], []⟩ := by
    simp [mainRun, hl, hc, he, hp]
  refine ⟨hrun, ?_⟩
  rw [hrun]
  simp [exitCode, errorExitCode]

/-- Witness for C7 at concrete arguments. -/
theorem c7_missing_prompt_usage_error_witness :
    mainRun ⟨"", "", false, false, false, false⟩ "" [] false
        = ⟨.aborted (.missingParameter "PROMPT" "string"), [], [], []⟩
    ∧ exitCode (mainRun ⟨"", "", false, false, false, false⟩ "" [] false).outcome ≠ 0 :=
  c7_missing_prompt_usage_error ⟨"", "", false, false, false, false⟩ "" [] false
    rfl rfl rfl rfl

/-- C10: a non-chat invocation with the editor requested never raises the
missing-prompt usage error, even when the editor returns an empty prompt:
the empty prompt is framed and sent to the completion collaborator. -/
theorem c10_editor_empty_prompt_ok (args : MainArgs) (fragments : List String)
    (confirm : Bool) (hl : args.listChat = false) (hc : args.chat = "")
    (he : args.editor = true) :
    (mainRun args "" fragments confirm).outcome = .finished
    ∧ (mainRun args "" fragments confirm).requests
        = [makePromptInitial "" args.shell args.code] := by
  constructor <;> simp [mainRun, hl, hc, he]

/-- Witness for C10 at concrete arguments. -/
theorem c10_editor_empty_prompt_ok_witness :
    (mainRun ⟨"ignored", "", false, false, false, true⟩ "" [] false).outcome = .finished
    ∧ (mainRun ⟨"ignored", "", false, false, false, true⟩ "" [] false).requests
        = [makePromptInitial "" false false] :=
  c10_editor_empty_prompt_ok ⟨"ignored", "", false, false, false, true⟩ [] false
    rfl rfl rfl

end SgptSpec
